import Mathlib

/-!
Shallow embedding of the MiniVectorDatabase repository (VectorDatabase.cpp).

The C++ store keeps an `unordered_map<string, vector<float>>`, guarded by a
single mutex; all public operations run under the lock, so every operation is
modelled as a pure function from the store state (plus arguments) to a result
and a new store state.  Vectors of IEEE-754 single-precision floats are
idealised as lists of rationals (exact arithmetic); `std::sqrt` is an opaque
math-library function and is passed around as an explicit parameter
`sqrtF : ℚ → ℚ`.  The `unordered_map` has an unspecified iteration order; it
is modelled as an association list with distinct keys, whose list order plays
the role of one possible iteration order (any order is a reachable state of
the hash map, so counterexamples that fix an order are legitimate).
-/

namespace MiniVectorDatabase

/-- A vector: `std::vector<float>`, idealised over ℚ. -/
abbrev Vec := List ℚ

/-- `enum class DistanceMetric` from VectorDatabase.cpp. -/
inductive DistanceMetric where
  | euclidean
  | cosine
  | manhattan
  | dotProduct
deriving DecidableEq, Repr

/-- `enum class IndexType` from VectorDatabase.cpp (reserved, unused by the core). -/
inductive IndexType where
  | linear
  | kdTree
  | hashTable
deriving DecidableEq, Repr

/-- `struct VectorDatabaseConfig` (the `thread_count` field is irrelevant to the
store's semantics and is omitted). -/
structure VectorDatabaseConfig where
  distance_metric : DistanceMetric := .euclidean
  index_type : IndexType := .linear
  max_vectors : Nat := 100000
deriving Repr

/-- `struct SearchResult`: id, computed distance, and a copy of the vector. -/
structure SearchResult where
  id : String
  distance : ℚ
  vector : Vec
deriving DecidableEq, Repr

/-- `std::numeric_limits<float>::max()`, the "infinitely far" sentinel:
FLT_MAX = (2^24 - 1) * 2^104. -/
def floatMax : ℚ := (2 ^ 24 - 1) * 2 ^ 104

/-- `VectorDatabase::calculateEuclideanDistance`: sentinel on length mismatch,
otherwise `sqrt(Σ (a_i - b_i)^2)`. -/
def calculateEuclideanDistance (sqrtF : ℚ → ℚ) (a b : Vec) : ℚ :=
  if a.length ≠ b.length then floatMax
  else sqrtF (((a.zip b).map (fun p => (p.1 - p.2) * (p.1 - p.2))).sum)

/-- `VectorDatabase::calculateCosineDistance`: sentinel on length mismatch;
distance 1 when either norm is zero; otherwise `1 - a·b / (‖a‖ ‖b‖)`. -/
def calculateCosineDistance (sqrtF : ℚ → ℚ) (a b : Vec) : ℚ :=
  if a.length ≠ b.length then floatMax
  else
    let dot_product := ((a.zip b).map (fun p => p.1 * p.2)).sum
    let norm_a := (a.map (fun x => x * x)).sum
    let norm_b := (b.map (fun x => x * x)).sum
    if norm_a = 0 ∨ norm_b = 0 then 1
    else 1 - dot_product / (sqrtF norm_a * sqrtF norm_b)

/-- `VectorDatabase::calculateManhattanDistance`: sentinel on length mismatch,
otherwise `Σ |a_i - b_i|`. -/
def calculateManhattanDistance (a b : Vec) : ℚ :=
  if a.length ≠ b.length then floatMax
  else ((a.zip b).map (fun p => |p.1 - p.2|)).sum

/-- `VectorDatabase::calculateDotProductDistance`: sentinel on length mismatch,
otherwise `-(a·b)`. -/
def calculateDotProductDistance (a b : Vec) : ℚ :=
  if a.length ≠ b.length then floatMax
  else -((a.zip b).map (fun p => p.1 * p.2)).sum

/-- `VectorDatabase::calculateDistance`: dispatch on the configured metric
(the C++ `default:` case is unreachable, the four enumerators are exhaustive). -/
def calculateDistance (sqrtF : ℚ → ℚ) (metric : DistanceMetric) (a b : Vec) : ℚ :=
  match metric with
  | .euclidean => calculateEuclideanDistance sqrtF a b
  | .cosine => calculateCosineDistance sqrtF a b
  | .manhattan => calculateManhattanDistance a b
  | .dotProduct => calculateDotProductDistance a b

/-- The store state of `class VectorDatabase`: fixed dimension, configuration,
and the id → vector map (`std::unordered_map`, modelled as an association
list; the list order models the map's unspecified iteration order). -/
structure VectorDatabase where
  dimension_ : Nat
  config_ : VectorDatabaseConfig
  vectors_ : List (String × Vec)
deriving Repr

/-- `std::unordered_map::find(id) != end()`: the key is present. -/
def mapContains (m : List (String × Vec)) (id : String) : Prop :=
  ∃ p ∈ m, p.1 = id

instance (m : List (String × Vec)) (id : String) : Decidable (mapContains m id) :=
  List.decidableBEx _ m

/-- `vectors_[id] = v`: overwrite in place when the key is present, otherwise
add a new entry (placed at the end; the hash map's order is unspecified anyway). -/
def mapInsert (m : List (String × Vec)) (id : String) (v : Vec) : List (String × Vec) :=
  if mapContains m id then m.map (fun p => if p.1 = id then (id, v) else p)
  else m ++ [(id, v)]

/-- `std::unordered_map` lookup: the value stored under `id`, if any. -/
def mapFind (m : List (String × Vec)) (id : String) : Option Vec :=
  (m.find? (fun p => p.1 == id)).map Prod.snd

/-- The `VectorDatabase(size_t dimension, config)` constructor: throws
(`none`) when `dimension == 0`, otherwise an empty store. -/
def create (dimension : Nat) (config : VectorDatabaseConfig) : Option VectorDatabase :=
  if dimension = 0 then none else some ⟨dimension, config, []⟩

/-- `VectorDatabase::validateVector`: the vector's length equals the store dimension. -/
def validateVector (db : VectorDatabase) (v : Vec) : Prop :=
  v.length = db.dimension_

instance (db : VectorDatabase) (v : Vec) : Decidable (validateVector db v) :=
  Nat.decEq _ _

/-- `VectorDatabase::insert`: reject on dimension mismatch, then on empty id,
then when `vectors_.size() >= config_.max_vectors` (note: the capacity check
does not look at whether `id` is already present); otherwise upsert. -/
def insert (db : VectorDatabase) (id : String) (v : Vec) : Bool × VectorDatabase :=
  if ¬ validateVector db v then (false, db)
  else if id = "" then (false, db)
  else if db.config_.max_vectors ≤ db.vectors_.length then (false, db)
  else (true, { db with vectors_ := mapInsert db.vectors_ id v })

/-- `VectorDatabase::insert_batch`: validate every pair, then reject when
`vectors_.size() + batch.size() > max_vectors` (note: ids already present in
the store are not discounted), then upsert every pair.  The `std::map`
argument is modelled as its entry list. -/
def insert_batch (db : VectorDatabase) (batch : List (String × Vec)) :
    Bool × VectorDatabase :=
  if ∃ p ∈ batch, ¬ validateVector db p.2 ∨ p.1 = "" then (false, db)
  else if db.config_.max_vectors < db.vectors_.length + batch.length then (false, db)
  else (true, { db with vectors_ := batch.foldl (fun m p => mapInsert m p.1 p.2) db.vectors_ })

/-- `std::priority_queue<SearchResult, vector<SearchResult>, greater<SearchResult>>`:
`greater` compares by `distance`, so this is a min-heap — `top()` is an element
of minimal distance.  The heap is modelled as a list sorted ascending by
distance, with `top` its head; `push` inserts in order (position among equal
distances is unspecified in C++, the model puts the new element first). -/
def heapPush : List SearchResult → SearchResult → List SearchResult
  | [], r => [r]
  | x :: rest, r =>
      if r.distance ≤ x.distance then r :: x :: rest else x :: heapPush rest r

/-- `std::sort(results.begin(), results.end(), [](a, b){ return a.distance < b.distance; })`:
sort ascending by distance (order among ties is unspecified in C++). -/
def sortResults (l : List SearchResult) : List SearchResult :=
  l.mergeSort (fun a b => decide (a.distance ≤ b.distance))

/-- The record scan of `VectorDatabase::search`: for each record compute the
distance; if `pq.size() < k` push, else compare with `pq.top()` — which for an
empty heap (k = 0) is undefined behaviour, modelled as `none` — and on
`distance < pq.top().distance` pop the top (the minimum!) and push. -/
def searchLoop (sqrtF : ℚ → ℚ) (metric : DistanceMetric) (query : Vec) (k : Nat) :
    List (String × Vec) → List SearchResult → Option (List SearchResult)
  | [], pq => some pq
  | (id, v) :: rest, pq =>
      let d := calculateDistance sqrtF metric query v
      if pq.length < k then
        searchLoop sqrtF metric query k rest (heapPush pq ⟨id, d, v⟩)
      else
        match pq with
        | [] => none
        | top :: pqRest =>
            if d < top.distance then
              searchLoop sqrtF metric query k rest (heapPush pqRest ⟨id, d, v⟩)
            else
              searchLoop sqrtF metric query k rest pq

/-- `VectorDatabase::search`: empty result on query-dimension mismatch or
empty store; otherwise run the bounded-heap scan, drain, and sort ascending
by distance.  `none` models the undefined behaviour of reading `pq.top()`
from an empty heap. -/
def search (db : VectorDatabase) (sqrtF : ℚ → ℚ) (query : Vec) (k : Nat) :
    Option (List SearchResult) :=
  if ¬ validateVector db query then some []
  else if db.vectors_ = [] then some []
  else (searchLoop sqrtF db.config_.distance_metric query k db.vectors_ []).map sortResults

/-- `VectorDatabase::search_radius`: empty result on query-dimension mismatch;
otherwise keep every record with `distance <= radius` and sort ascending by
distance. -/
def search_radius (db : VectorDatabase) (sqrtF : ℚ → ℚ) (query : Vec) (radius : ℚ) :
    List SearchResult :=
  if ¬ validateVector db query then []
  else
    sortResults (db.vectors_.filterMap (fun p =>
      let d := calculateDistance sqrtF db.config_.distance_metric query p.2
      if d ≤ radius then some ⟨p.1, d, p.2⟩ else none))

/-- The byte stream written by `VectorDatabase::save` / consumed by
`VectorDatabase::load`: the recorded dimension, the recorded record count,
and the list of records physically decodable from the rest of the stream.
A truncated file has fewer decodable records than `count`; reading it fails
partway through (`ifstream::read` sets the fail bit and `file.good()` is
false at the end). -/
structure SaveFile where
  fdim : Nat
  count : Nat
  records : List (String × Vec)
deriving Repr

/-- `VectorDatabase::save` when the file opens successfully: write the
dimension, the record count, and every record in iteration order. -/
def save (db : VectorDatabase) : SaveFile :=
  ⟨db.dimension_, db.vectors_.length, db.vectors_⟩

/-- `VectorDatabase::load`.  `none` models a file that cannot be opened
(failure, store untouched).  A dimension-header mismatch is a failure with the
store untouched.  Otherwise the store is cleared and repopulated record by
record; the call reports success iff the stream supplied all `count` records.
(After a mid-stream read failure the C++ loop keeps running on indeterminate
buffer contents; the model keeps the well-defined part: the clear, the
fully-read records, and the failure result.) -/
def load (db : VectorDatabase) (file : Option SaveFile) : Bool × VectorDatabase :=
  match file with
  | none => (false, db)
  | some f =>
      if f.fdim ≠ db.dimension_ then (false, db)
      else
        let newVectors := (f.records.take f.count).foldl (fun m p => mapInsert m p.1 p.2) []
        (decide (f.count ≤ f.records.length), { db with vectors_ := newVectors })

/-- `VectorDatabase::clear`. -/
def clear (db : VectorDatabase) : VectorDatabase :=
  { db with vectors_ := [] }

/-- `VectorDatabase::size`. -/
def size (db : VectorDatabase) : Nat :=
  db.vectors_.length

/-- `VectorDatabase::get_vector`: the stored vector, or an empty one. -/
def get_vector (db : VectorDatabase) (id : String) : Vec :=
  match mapFind db.vectors_ id with
  | some v => v
  | none => []

/-- `VectorDatabase::exists`. -/
def existsId (db : VectorDatabase) (id : String) : Bool :=
  decide (mapContains db.vectors_ id)

/-- `VectorDatabase::remove`: erase the entry with the given key, report
whether one existed. -/
def remove (db : VectorDatabase) (id : String) : Bool × VectorDatabase :=
  (decide (mapContains db.vectors_ id),
   { db with vectors_ := db.vectors_.eraseP (fun p => p.1 == id) })

/-! ### Helper lemmas about the map and sorting models -/

theorem mapInsert_length_le (m : List (String × Vec)) (id : String) (v : Vec) :
    (mapInsert m id v).length ≤ m.length + 1 := by
  unfold mapInsert
  split
  · simp [Nat.le_succ]
  · simp

theorem foldl_mapInsert_length_le (batch : List (String × Vec)) (m : List (String × Vec)) :
    (batch.foldl (fun acc p => mapInsert acc p.1 p.2) m).length ≤ m.length + batch.length := by
  induction batch generalizing m with
  | nil => simp
  | cons p rest ih =>
      simp only [List.foldl_cons, List.length_cons]
      calc (rest.foldl (fun acc q => mapInsert acc q.1 q.2) (mapInsert m p.1 p.2)).length
          ≤ (mapInsert m p.1 p.2).length + rest.length := ih _
        _ ≤ m.length + 1 + rest.length :=
            Nat.add_le_add_right (mapInsert_length_le m p.1 p.2) _
        _ = m.length + (rest.length + 1) := by omega

theorem mapInsert_of_not_contains (m : List (String × Vec)) (id : String) (v : Vec)
    (h : ¬ mapContains m id) : mapInsert m id v = m ++ [(id, v)] := by
  unfold mapInsert
  rw [if_neg h]

theorem foldl_mapInsert_append (l : List (String × Vec)) (acc : List (String × Vec))
    (hdisj : ∀ p ∈ l, ¬ mapContains acc p.1) (hnd : (l.map Prod.fst).Nodup) :
    l.foldl (fun m p => mapInsert m p.1 p.2) acc = acc ++ l := by
  induction l generalizing acc with
  | nil => simp
  | cons p rest ih =>
      obtain ⟨k, v⟩ := p
      simp only [List.map_cons, List.nodup_cons] at hnd
      simp only [List.foldl_cons]
      rw [mapInsert_of_not_contains _ _ _ (hdisj (k, v) (by simp))]
      have hdisj' : ∀ q ∈ rest, ¬ mapContains (acc ++ [(k, v)]) q.1 := by
        intro q hq hcon
        rcases hcon with ⟨r, hr, hr1⟩
        rcases List.mem_append.mp hr with hra | hrk
        · exact hdisj q (List.mem_cons_of_mem _ hq) ⟨r, hra, hr1⟩
        · have : r = (k, v) := by simpa using hrk
          subst this
          exact hnd.1 (by simpa [← hr1] using List.mem_map_of_mem Prod.fst hq)
      rw [ih (acc ++ [(k, v)]) hdisj' hnd.2, List.append_assoc, List.singleton_append]

theorem foldl_mapInsert_nil (l : List (String × Vec)) (hnd : (l.map Prod.fst).Nodup) :
    l.foldl (fun m p => mapInsert m p.1 p.2) [] = l := by
  have h := foldl_mapInsert_append l [] (by intro p _ hcon; rcases hcon with ⟨r, hr, _⟩; cases hr) hnd
  simpa using h

theorem sortResults_perm (l : List SearchResult) : (sortResults l).Perm l :=
  List.mergeSort_perm l _

theorem mem_sortResults {r : SearchResult} {l : List SearchResult} :
    r ∈ sortResults l ↔ r ∈ l :=
  (sortResults_perm l).mem_iff

theorem sortResults_sorted (l : List SearchResult) :
    (sortResults l).Pairwise (fun a b => a.distance ≤ b.distance) := by
  have h := @List.sorted_mergeSort SearchResult
    (fun a b : SearchResult => decide (a.distance ≤ b.distance))
    (fun a b c hab hbc => by
      simp only [decide_eq_true_eq] at hab hbc ⊢
      exact le_trans hab hbc)
    (fun a b => by
      simp only [Bool.or_eq_true, decide_eq_true_eq]
      exact le_total a.distance b.distance) l
  exact h.imp (fun hab => by simpa using hab)

/-! ### Concrete fixtures used by counterexamples and witnesses -/

/-- A configuration with capacity one (Euclidean metric, linear index). -/
def cfgMax1 : VectorDatabaseConfig :=
  { distance_metric := .euclidean, index_type := .linear, max_vectors := 1 }

/-- A dimension-1 store at capacity: `max_vectors = 1` and one record `"a" ↦ [0]`. -/
def dbCap : VectorDatabase := ⟨1, cfgMax1, [("a", [0])]⟩

/-! ### Claim theorems -/

/-- Claim C1, amended: `insert(id, vector)` is rejected exactly when `id` is
empty, or the vector's length differs from the store's dimension, or the store
already holds at least `max_vectors` records — regardless of whether `id` is
already present, so an upsert of an existing key at a full store is rejected
too (the capacity check at VectorDatabase.cpp:341 does not look at `id`). -/
theorem insert_rejected_iff (db : VectorDatabase) (id : String) (v : Vec) :
    (insert db id v).1 = false ↔
      (id = "" ∨ v.length ≠ db.dimension_ ∨
        db.config_.max_vectors ≤ db.vectors_.length) := by
  unfold insert validateVector
  split_ifs with h1 h2 h3 <;> simp_all

/-- Claim C1, counterexample to the claim as stated: at a capacity-1 store
already holding `"a"`, an upsert of `"a"` with a valid vector is rejected,
although the claim says an upsert of an existing key never counts against
capacity and must succeed. -/
theorem insert_at_capacity_upsert_rejected :
    ("a" : String) ≠ "" ∧ ([(1 : ℚ)] : Vec).length = dbCap.dimension_ ∧
    mapContains dbCap.vectors_ "a" ∧ (insert dbCap "a" [1]).1 = false := by
  refine ⟨by decide, by simp [dbCap], ⟨("a", [0]), by simp [dbCap], rfl⟩, ?_⟩
  simp [insert, dbCap, cfgMax1, validateVector]

/-- Claim C2, amended: a `load` failure due to the file not opening, or to a
dimension-header mismatch, leaves the store's contents unchanged.  (The third
failure mode — the stream failing partway through the records — does not: the
store has already been cleared and repopulated; see the counterexample.) -/
theorem load_header_failure_preserves_store (db : VectorDatabase) (f : SaveFile)
    (hdim : f.fdim ≠ db.dimension_) :
    load db none = (false, db) ∧ load db (some f) = (false, db) := by
  constructor
  · rfl
  · simp only [load]
    rw [if_pos hdim]

theorem load_header_failure_preserves_store_witness :
    (2 : Nat) ≠ dbCap.dimension_ ∧ load dbCap (some ⟨2, 0, []⟩) = (false, dbCap) :=
  ⟨by decide, (load_header_failure_preserves_store dbCap ⟨2, 0, []⟩ (by decide)).2⟩

/-- Claim C2, counterexample to the claim as stated: a file whose header
matches (dimension 1) and records `count = 1` but whose stream ends before the
first record makes `load` report failure, yet the store — which held `"a"`
before the call — has been cleared: its contents after the call differ from
those before. -/
theorem load_stream_failure_mutates_store :
    (load dbCap (some ⟨1, 1, []⟩)).1 = false ∧
    (load dbCap (some ⟨1, 1, []⟩)).2.vectors_ ≠ dbCap.vectors_ := by
  constructor
  · simp [load, dbCap]
  · simp [load, dbCap]

/-- Claim C3, amended: for a batch whose pairs are all valid (right dimension,
non-empty ids), `insert_batch` is rejected exactly when `size() + batch.size()`
exceeds `max_vectors`: existing entries whose ids also occur in the batch are
not discounted (VectorDatabase.cpp:361), so a valid batch consisting only of
already-present ids can still be rejected for capacity. -/
theorem insert_batch_capacity_iff (db : VectorDatabase) (batch : List (String × Vec))
    (hvalid : ∀ p ∈ batch, p.2.length = db.dimension_ ∧ p.1 ≠ "") :
    ((insert_batch db batch).1 = false ↔
      db.config_.max_vectors < db.vectors_.length + batch.length) := by
  unfold insert_batch
  rw [if_neg ?hval]
  case hval =>
    rintro ⟨p, hp, hbad⟩
    rcases hbad with hvd | hempty
    · exact hvd (hvalid p hp).1
    · exact (hvalid p hp).2 hempty
  split_ifs with hcap <;> simp [hcap]

theorem insert_batch_capacity_iff_witness :
    ((insert_batch dbCap [("b", [2])]).1 = false ↔
      dbCap.config_.max_vectors < dbCap.vectors_.length + 1) :=
  insert_batch_capacity_iff dbCap [("b", [2])] (by decide)

/-- Claim C3, counterexample to the claim as stated: at the capacity-1 store
holding `"a"`, the valid singleton batch `{"a" ↦ [1]}` has post-insert size 1
(its id is already present), within capacity, yet `insert_batch` rejects it. -/
theorem insert_batch_overlap_rejected :
    ([(1 : ℚ)] : Vec).length = dbCap.dimension_ ∧ ("a" : String) ≠ "" ∧
    (dbCap.vectors_.filter
        (fun p => decide (¬ mapContains [("a", ([1] : Vec))] p.1))).length +
      ([("a", ([1] : Vec))] : List (String × Vec)).length ≤
        dbCap.config_.max_vectors ∧
    insert_batch dbCap [("a", [1])] = (false, dbCap) := by
  refine ⟨by simp [dbCap], by decide, ?_, ?_⟩
  · simp [dbCap, cfgMax1, mapContains]
  · simp [insert_batch, dbCap, cfgMax1, validateVector]

/-- Claim C4: `insert_batch` is atomic all-or-nothing: whenever some pair in
the batch has an empty id or a vector of the wrong dimension, or the
post-insert size (existing entries whose ids are not in the batch, plus all
batch entries) would exceed `max_vectors`, the call is rejected and the store
is returned unchanged — no partial effect. -/
theorem insert_batch_atomic (db : VectorDatabase) (batch : List (String × Vec))
    (h : (∃ p ∈ batch, p.1 = "" ∨ p.2.length ≠ db.dimension_) ∨
      db.config_.max_vectors <
        (db.vectors_.filter (fun p => decide (¬ mapContains batch p.1))).length +
          batch.length) :
    insert_batch db batch = (false, db) := by
  unfold insert_batch
  by_cases hbad : ∃ p ∈ batch, ¬ validateVector db p.2 ∨ p.1 = ""
  · rw [if_pos hbad]
  · rw [if_neg hbad]
    rcases h with ⟨p, hp, hor⟩ | h2
    · exact absurd ⟨p, hp, hor.symm⟩ hbad
    · have hle := List.length_filter_le
        (fun p => decide (¬ mapContains batch p.1)) db.vectors_
      rw [if_pos (by omega)]

theorem insert_batch_atomic_witness :
    ("" : String) = "" ∧ insert_batch dbCap [("", [1])] = (false, dbCap) :=
  ⟨rfl, insert_batch_atomic dbCap [("", [1])] (Or.inl ⟨("", [1]), by simp, Or.inl rfl⟩)⟩

/-- A model of `std::sqrt` used at concrete inputs; it agrees with the exact
square root on every argument arising there (0, 1 and 4, all perfect squares). -/
def sqrtT : ℚ → ℚ :=
  fun q => if q = 0 then 0 else if q = 1 then 1 else if q = 4 then 2 else 0

/-- A dimension-1 Euclidean store holding `c ↦ [2]`, `b ↦ [1]`, `a ↦ [0]`, in
that iteration order (a reachable `unordered_map` state). -/
def db3 : VectorDatabase :=
  ⟨1, { distance_metric := .euclidean, index_type := .linear, max_vectors := 100000 },
   [("c", [2]), ("b", [1]), ("a", [0])]⟩

/-- Claim C5, evaluation at the failing input: asking the store
`c ↦ [2], b ↦ [1], a ↦ [0]` (iterated in that order) for the k = 2 nearest
neighbours of `[0]` returns `a` (distance 0) and `c` (distance 2) — not the
two nearest records `a` (0) and `b` (1).  The `std::greater` comparator makes
the priority queue a min-heap, so `pq.top()` is the closest candidate kept so
far, and the scan pops it — discarding the nearer neighbour — whenever an even
closer record arrives. -/
theorem search_discards_nearer_record :
    search db3 sqrtT [0] 2 = some [⟨"a", 0, [0]⟩, ⟨"c", 2, [2]⟩] ∧
    ("b", ([1] : Vec)) ∈ db3.vectors_ ∧
    calculateDistance sqrtT .euclidean [0] [1] = 1 ∧ (1 : ℚ) < 2 := by
  refine ⟨?_, by simp [db3], ?_, by norm_num⟩
  · norm_num [search, searchLoop, sortResults, db3, sqrtT, validateVector,
      calculateDistance, calculateEuclideanDistance, heapPush, floatMax,
      List.mergeSort, List.merge]
    exact fun h => absurd h (by simp)
  · norm_num [calculateDistance, calculateEuclideanDistance, sqrtT, floatMax]

/-- Claim C9, evaluation at the failing input: with k = 0 and a non-empty
store, the guard `pq.size() < k` never holds, so already the first record
makes `search` read `pq.top()` from an empty priority queue — undefined
behaviour in the C++ (`none` in the model). -/
theorem search_k_zero_reads_empty_heap_top :
    search dbCap sqrtT [0] 0 = none ∧ dbCap.vectors_ ≠ [] := by
  constructor
  · simp [search, searchLoop, dbCap, validateVector]
  · simp [dbCap]

/-- Claim C6: for a query of the store's dimension, `search_radius(query, r)`
returns exactly the stored records at distance ≤ r (inclusive bound), each
paired with its computed distance, sorted non-decreasing by distance, with no
cap on the result count. -/
theorem search_radius_exact (db : VectorDatabase) (sqrtF : ℚ → ℚ) (query : Vec)
    (radius : ℚ) (hq : validateVector db query) :
    (search_radius db sqrtF query radius).Pairwise
        (fun a b => a.distance ≤ b.distance) ∧
    (∀ r ∈ search_radius db sqrtF query radius,
      (r.id, r.vector) ∈ db.vectors_ ∧
      r.distance = calculateDistance sqrtF db.config_.distance_metric query r.vector ∧
      r.distance ≤ radius) ∧
    (∀ p ∈ db.vectors_,
      calculateDistance sqrtF db.config_.distance_metric query p.2 ≤ radius →
      (⟨p.1, calculateDistance sqrtF db.config_.distance_metric query p.2, p.2⟩ :
        SearchResult) ∈ search_radius db sqrtF query radius) := by
  have hdef : search_radius db sqrtF query radius =
      sortResults (db.vectors_.filterMap (fun p =>
        let d := calculateDistance sqrtF db.config_.distance_metric query p.2
        if d ≤ radius then some ⟨p.1, d, p.2⟩ else none)) := by
    unfold search_radius
    rw [if_neg (not_not_intro hq)]
  refine ⟨?_, ?_, ?_⟩
  · rw [hdef]
    exact sortResults_sorted _
  · intro r hr
    rw [hdef, mem_sortResults] at hr
    rcases List.mem_filterMap.mp hr with ⟨p, hp, hfp⟩
    dsimp only at hfp
    split at hfp
    · rename_i hd
      obtain rfl := Option.some.inj hfp
      exact ⟨by simpa using hp, rfl, hd⟩
    · cases hfp
  · intro p hp hd
    rw [hdef, mem_sortResults]
    refine List.mem_filterMap.mpr ⟨p, hp, ?_⟩
    dsimp only
    rw [if_pos hd]

theorem search_radius_exact_witness :
    validateVector db3 [0] ∧
    (search_radius db3 sqrtT [0] 1).Pairwise (fun a b => a.distance ≤ b.distance) :=
  ⟨by decide, (search_radius_exact db3 sqrtT [0] 1 (by decide)).1⟩

/-- Claim C7: round-trip persistence: for every store with distinct ids (as an
`unordered_map` guarantees) whose save succeeds, loading the saved file into a
freshly constructed store of the same dimension succeeds and reproduces an
identical id → vector mapping and an identical size. -/
theorem save_load_roundtrip (db : VectorDatabase) (cfg : VectorDatabaseConfig)
    (hdim : db.dimension_ ≠ 0) (hnd : (db.vectors_.map Prod.fst).Nodup) :
    create db.dimension_ cfg = some ⟨db.dimension_, cfg, []⟩ ∧
    load ⟨db.dimension_, cfg, []⟩ (some (save db)) =
      (true, ⟨db.dimension_, cfg, db.vectors_⟩) ∧
    size (load ⟨db.dimension_, cfg, []⟩ (some (save db))).2 = size db ∧
    ∀ id, mapFind (load ⟨db.dimension_, cfg, []⟩ (some (save db))).2.vectors_ id =
      mapFind db.vectors_ id := by
  have hload : load ⟨db.dimension_, cfg, []⟩ (some (save db)) =
      (true, ⟨db.dimension_, cfg, db.vectors_⟩) := by
    simp only [load, save]
    rw [if_neg (by simp), List.take_length, foldl_mapInsert_nil db.vectors_ hnd]
    simp
  refine ⟨by simp [create, hdim], hload, ?_, fun id => by rw [hload]⟩
  rw [hload]
  rfl

theorem save_load_roundtrip_witness :
    db3.dimension_ ≠ 0 ∧
    load ⟨db3.dimension_, cfgMax1, []⟩ (some (save db3)) =
      (true, ⟨db3.dimension_, cfgMax1, db3.vectors_⟩) :=
  ⟨by decide, (save_load_roundtrip db3 cfgMax1 (by decide) (by decide)).2.1⟩

/-- Claim C8: for each of the four distance metrics, a pair of vectors of
unequal lengths yields the maximum-representable-float sentinel ("infinitely
far") rather than a failure; the evaluator is a total function of its inputs. -/
theorem calculateDistance_mismatch_sentinel (sqrtF : ℚ → ℚ)
    (metric : DistanceMetric) (a b : Vec) (h : a.length ≠ b.length) :
    calculateDistance sqrtF metric a b = floatMax := by
  cases metric <;>
    simp [calculateDistance, calculateEuclideanDistance, calculateCosineDistance,
      calculateManhattanDistance, calculateDotProductDistance, h]

theorem calculateDistance_mismatch_sentinel_witness :
    ([(1 : ℚ)] : Vec).length ≠ ([] : Vec).length ∧
    calculateDistance sqrtT .manhattan [1] [] = floatMax :=
  ⟨by decide, calculateDistance_mismatch_sentinel sqrtT .manhattan [1] [] (by decide)⟩

/-- Claim C10, amended: the capacity bound `size() ≤ max_vectors` is preserved
by `insert`, `insert_batch`, `remove` and `clear`; it is not preserved by
`load`, which performs no capacity check and leaves the store with as many
records as the file supplies (see the counterexample). -/
theorem capacity_invariant_mutators (db : VectorDatabase) (id : String) (v : Vec)
    (batch : List (String × Vec)) (h : size db ≤ db.config_.max_vectors) :
    size (insert db id v).2 ≤ db.config_.max_vectors ∧
    size (insert_batch db batch).2 ≤ db.config_.max_vectors ∧
    size (remove db id).2 ≤ db.config_.max_vectors ∧
    size (clear db) ≤ db.config_.max_vectors := by
  refine ⟨?_, ?_, ?_, ?_⟩
  · unfold insert
    have hi := mapInsert_length_le db.vectors_ id v
    split_ifs with h1 h2 h3 <;> simp only [size] at * <;> omega
  · unfold insert_batch
    have hb := foldl_mapInsert_length_le batch db.vectors_
    split_ifs with h1 h2 <;> simp only [size] at * <;> omega
  · have := @List.length_eraseP_le _ (fun p => p.1 == id) db.vectors_
    simp only [remove, size] at *
    omega
  · simp [clear, size]

theorem capacity_invariant_mutators_witness :
    size dbCap ≤ dbCap.config_.max_vectors ∧
    size (insert dbCap "b" [1]).2 ≤ dbCap.config_.max_vectors :=
  ⟨by decide, (capacity_invariant_mutators dbCap "b" [1] [("c", [2])] (by decide)).1⟩

/-- Claim C10, counterexample to the claim as stated: loading a well-formed
file holding two records into an empty capacity-1 store succeeds and leaves
`size() = 2 > max_vectors = 1` — `load` performs no capacity check. -/
theorem load_ignores_capacity :
    size (⟨1, cfgMax1, []⟩ : VectorDatabase) ≤ cfgMax1.max_vectors ∧
    (load (⟨1, cfgMax1, []⟩ : VectorDatabase)
      (some ⟨1, 2, [("a", [0]), ("b", [1])]⟩)).1 = true ∧
    cfgMax1.max_vectors < size (load (⟨1, cfgMax1, []⟩ : VectorDatabase)
      (some ⟨1, 2, [("a", [0]), ("b", [1])]⟩)).2 := by
  refine ⟨by decide, ?_, ?_⟩
  · simp [load, size]
  · simp [load, size, mapInsert, mapContains, cfgMax1]

end MiniVectorDatabase
